import Mathlib

/-!
Shallow embedding of the auto-suite Reddit bot pipeline.

JavaScript strings are modelled as Lean `String` (a sequence of characters);
`jsLength`, `jsSubstring0`, `jsToLower`, `jsIncludes`, `jsTrim` model the
corresponding JS string operations used by the source.  Network calls are
modelled by explicit oracles (`String → Bool` for HEAD probes, environment
records for per-post API outcomes); each function that performs network I/O
additionally returns the number of requests it issued.
-/

/-- Tests whether the first character list starts the second (the building
block of the substring search used to model JS string methods). -/
def strStartsWith : List Char → List Char → Bool
  | [], _ => true
  | _ :: _, [] => false
  | a :: as, b :: bs => a == b && strStartsWith as bs

/-- Substring occurrence test on character lists (first argument is the needle). -/
def strHasSub (needle : List Char) : List Char → Bool
  | [] => needle.isEmpty
  | c :: cs => strStartsWith needle (c :: cs) || strHasSub needle cs

/-- Models JS `haystack.includes(needle)`. -/
def jsIncludes (haystack needle : String) : Bool :=
  strHasSub needle.data haystack.data

/-- Models JS `s.length`. -/
def jsLength (s : String) : Nat := s.data.length

/-- Models JS `s.substring(0, n)`. -/
def jsSubstring0 (s : String) (n : Nat) : String := ⟨s.data.take n⟩

/-- Models JS `s.toLowerCase()`. -/
def jsToLower (s : String) : String := ⟨s.data.map Char.toLower⟩

/-- Models JS `s.trim()`. -/
def jsTrim (s : String) : String :=
  ⟨((s.data.dropWhile Char.isWhitespace).reverse.dropWhile Char.isWhitespace).reverse⟩

/-- Models the JS global regex replace of `&amp;` by an ampersand:
left-to-right, non-overlapping, the replacement text is not rescanned. -/
def decodeAmp : List Char → List Char
  | '&' :: 'a' :: 'm' :: 'p' :: ';' :: rest => '&' :: decodeAmp rest
  | c :: rest => c :: decodeAmp rest
  | [] => []

/-- Lifts `decodeAmp` to `String`. -/
def decodeAmpStr (s : String) : String := ⟨decodeAmp s.data⟩

/-- Truthiness of an optional JS string field (an absent, null or empty
value is falsy). -/
def jsTruthyStr : Option String → Bool
  | none => false
  | some s => s ≠ ""

/-! ## Data model (from the TypeScript interfaces and JSON payload shapes) -/

/-- The `RedditPost` interface of the intelligent-commenter script. -/
structure RedditPost where
  id : String
  title : String
  selftext : String
  author : String
  url : String
  created_utc : Int
  num_comments : Nat
  score : Int
  is_video : Bool
deriving DecidableEq, Repr

/-- The `RedditComment` interface of the intelligent-commenter script. -/
structure RedditComment where
  id : String
  body : String
  author : String
  score : Int
  created_utc : Int
deriving DecidableEq, Repr

/-- The `commenting` block of `CommenterConfig`. -/
structure Commenting where
  maxCommentsPerRun : Nat
  delayBetweenComments : Nat
deriving DecidableEq, Repr

/-- The `postSelection` block of `CommenterConfig`. -/
structure PostSelection where
  minCommentCount : Nat
  maxPostAgeHours : Nat
  topCommentsToFetch : Nat
deriving DecidableEq, Repr

/-- The `qualityControl` block of `CommenterConfig`. -/
structure QualityControl where
  dryRunMode : Bool
  maxCommentLength : Nat
  minCommentLength : Nat
  blacklistedKeywords : List String
deriving DecidableEq, Repr

/-- The configuration fields of `CommenterConfig` that the modelled pipeline
reads (api/logging blocks only tune timeouts and log output). -/
structure CommenterConfig where
  commenting : Commenting
  postSelection : PostSelection
  qualityControl : QualityControl
deriving DecidableEq, Repr

/-- One entry of the ordered `gallery_data.items` list of a gallery post. -/
structure GalleryItem where
  media_id : String
deriving DecidableEq, Repr

/-- The `gallery_data` field of a raw gallery post; `items` may be absent. -/
structure GalleryData where
  items : Option (List GalleryItem)
deriving DecidableEq, Repr

/-- The `s` (source) entry of a `media_metadata` item; `u` may be absent. -/
structure MediaSource where
  u : Option String
deriving DecidableEq, Repr

/-- One value of the `media_metadata` mapping; `s` may be absent. -/
structure MediaItem where
  s : Option MediaSource
deriving DecidableEq, Repr

/-- The fields of a raw Reddit post payload that the crawler scripts read
for image validation.  `media_metadata` is a JS object, modelled as an
association list in property order (`Object.keys` order). -/
structure RawPost where
  url : Option String
  is_video : Bool
  is_gallery : Bool
  gallery_data : Option GalleryData
  media_metadata : Option (List (String × MediaItem))
deriving DecidableEq, Repr

/-- The `ImageValidation` interface (`reason` absent on success). -/
structure ImageValidation where
  isValid : Bool
  url : String
  reason : Option String
deriving DecidableEq, Repr

/-- JS object property lookup on the association-list model. -/
def objLookup (mm : List (String × MediaItem)) (key : String) : Option MediaItem :=
  (mm.find? (fun kv => kv.1 == key)).map (fun kv => kv.2)

/-! ## Comment Generator validation (`generateComment`, part_001 lines 357-384)

The raw completion text is trimmed (`data.choices[0].message.content.trim()`),
then validated: too short → null; too long → return the truncated text at
once; only otherwise is the blacklist checked. -/

/-- The validation step of `generateComment` on the (already trimmed)
completion text: length window and blacklist check, in source order. -/
def validateComment (qc : QualityControl) (comment : String) : Option String :=
  if jsLength comment < qc.minCommentLength then
    none
  else if qc.maxCommentLength < jsLength comment then
    some (jsSubstring0 comment qc.maxCommentLength)
  else if qc.blacklistedKeywords.any
      (fun keyword => jsIncludes (jsToLower comment) (jsToLower keyword)) then
    none
  else
    some comment

/-- Embeds `generateComment` as a function of the outcome of the completion
endpoint:
`none` models an API failure (non-ok response or network error, both caught
and turned into null); `some raw` is the returned message content. -/
def generateComment (qc : QualityControl) (llmResponse : Option String) : Option String :=
  match llmResponse with
  | none => none
  | some raw => validateComment qc (jsTrim raw)

/-! ## Candidate Filter (`isImageUrl` / `filterCandidatePosts`, part_001) -/

/-- The `isImageUrl` helper of the intelligent-commenter script: image file
extension in
the lowercased URL, known image domain, or a Reddit gallery URL. -/
def isImageUrl (url : String) : Bool :=
  let imageExtensions := [".jpg", ".jpeg", ".png", ".gif", ".webp"]
  let imageDomains := ["i.redd.it", "i.imgur.com", "preview.redd.it"]
  let hasImageExtension := imageExtensions.any (fun ext => jsIncludes (jsToLower url) ext)
  let hasImageDomain := imageDomains.any (fun domain => jsIncludes url domain)
  hasImageExtension || hasImageDomain || jsIncludes url "reddit.com/gallery/"

/-- Embeds `filterCandidatePosts`: comment-count, age, media-type, then
already-commented exclusion, finally truncation to `maxCommentsPerRun`.
`now` is the fetch-time clock (`Date.now()/1000`) and `alreadyCommented`
models the outcome of `checkAlreadyCommented` per post id. -/
def filterCandidatePosts (cfg : CommenterConfig) (now : Int)
    (alreadyCommented : String → Bool) (posts : List RedditPost) : List RedditPost :=
  let withEnoughComments :=
    posts.filter (fun post => decide (cfg.postSelection.minCommentCount ≤ post.num_comments))
  let maxAge : Int := (cfg.postSelection.maxPostAgeHours : Int) * 3600
  let recentPosts :=
    withEnoughComments.filter (fun post => decide (now - post.created_utc ≤ maxAge))
  let imagePosts :=
    recentPosts.filter (fun post => !post.is_video && isImageUrl post.url)
  let notCommented :=
    imagePosts.filter (fun post => !alreadyCommented post.id)
  notCommented.take cfg.commenting.maxCommentsPerRun

/-- Modelled from the spec (§4.3), for the refinement reading of the filter
claim: apply, in fixed order, (a) minimum comment-count threshold, (b)
maximum age window from fetch time, (c) media-type restriction (image or
gallery URL and not video), (d) exclusion of posts with an existing
CommentRecord; truncate to the per-run maximum. -/
def selectCandidatesSpec (cfg : CommenterConfig) (now : Int)
    (hasCommentRecord : String → Bool) (posts : List RedditPost) : List RedditPost :=
  (((posts.filter
      (fun post => decide (cfg.postSelection.minCommentCount ≤ post.num_comments))).filter
      (fun post => decide (now - post.created_utc ≤ (cfg.postSelection.maxPostAgeHours : Int) * 3600))).filter
      (fun post => !post.is_video && isImageUrl post.url)).filter
      (fun post => !hasCommentRecord post.id)
    |>.take cfg.commenting.maxCommentsPerRun

/-! ## Image Resolver (crawler.ts and comprehensive-crawler.ts)

Both crawlers define `isImageUrl` (without the gallery clause),
`isGalleryUrl`, `isImgurAlbumUrl`, `extractImageFromImgurAlbum`,
`extractFirstImageFromGallery` identically; their `validateImage` functions
differ only in the final availability probe.  HEAD probes are modelled by an
oracle `net : String → Bool` (true iff the response is ok with an image
content-type; timeouts and errors are false).  Each network-touching
function also returns how many requests it issued. -/

/-- The `isImageUrl` helper of the crawler scripts (no gallery clause). -/
def isImageUrlCrawler (url : String) : Bool :=
  let imageExtensions := [".jpg", ".jpeg", ".png", ".gif", ".webp"]
  let imageDomains := ["i.redd.it", "i.imgur.com", "preview.redd.it"]
  let hasImageExtension := imageExtensions.any (fun ext => jsIncludes (jsToLower url) ext)
  let hasImageDomain := imageDomains.any (fun domain => jsIncludes url domain)
  hasImageExtension || hasImageDomain

/-- Embeds `isGalleryUrl`. -/
def isGalleryUrl (url : String) : Bool :=
  jsIncludes url "reddit.com/gallery/"

/-- Embeds `isImgurAlbumUrl`. -/
def isImgurAlbumUrl (url : String) : Bool :=
  jsIncludes url "imgur.com/a/" || jsIncludes url "imgur.com/gallery/"

/-- The character class `[a-zA-Z0-9]` of the album-id regex. -/
def isAlnum (c : Char) : Bool := c.isAlpha || c.isDigit

/-- Try the regex `imgur\.com\/(?:a|gallery)\/([a-zA-Z0-9]+)` at the current
position; returns the capture group on a match. -/
def imgurMatchAt (cs : List Char) : Option String :=
  if strStartsWith "imgur.com/a/".data cs then
    let run := (cs.drop 12).takeWhile isAlnum
    if run.isEmpty then none else some ⟨run⟩
  else if strStartsWith "imgur.com/gallery/".data cs then
    let run := (cs.drop 18).takeWhile isAlnum
    if run.isEmpty then none else some ⟨run⟩
  else none

/-- Leftmost match of the album-id regex over the whole string. -/
def imgurScan : List Char → Option String
  | [] => none
  | c :: cs =>
    match imgurMatchAt (c :: cs) with
    | some found => some found
    | none => imgurScan cs

/-- Models the JS regex match on the album URL, returning capture group 1
(the album identifier made of characters in `[a-zA-Z0-9]`). -/
def imgurAlbumId (url : String) : Option String := imgurScan url.data

/-- Embeds `extractImageFromImgurAlbum`: guess `.jpg`, `.png`, `.gif` on the
album id
and HEAD-probe each in order; first success wins.  Second component counts
issued probes. -/
def extractImageFromImgurAlbum (net : String → Bool) (url : String) :
    Option String × Nat :=
  match imgurAlbumId url with
  | none => (none, 0)
  | some albumId =>
    let u1 := "https://i.imgur.com/" ++ albumId ++ ".jpg"
    let u2 := "https://i.imgur.com/" ++ albumId ++ ".png"
    let u3 := "https://i.imgur.com/" ++ albumId ++ ".gif"
    if net u1 then (some u1, 1)
    else if net u2 then (some u2, 2)
    else if net u3 then (some u3, 3)
    else (none, 3)

/-- Embeds `extractFirstImageFromGallery` (identical in both crawler
scripts): use
`gallery_data.items` for order when present and usable; otherwise fall
through to `Object.keys(media_metadata)` enumeration.  Note the fall-through
also happens when the metadata of the first listed item lacks a truthy `s.u`.
Purely payload-driven: no network request. -/
def extractFirstImageFromGallery (post : RawPost) : Option String :=
  if !post.is_gallery then none
  else
    match post.media_metadata with
    | none => none
    | some mm =>
      let ordered : Option String :=
        match post.gallery_data with
        | none => none
        | some gd =>
          match gd.items with
          | none => none
          | some [] => none
          | some (firstItem :: _) =>
            match objLookup mm firstItem.media_id with
            | none => none
            | some mediaItem =>
              match mediaItem.s with
              | none => none
              | some src =>
                match src.u with
                | none => none
                | some u => if u = "" then none else some (decodeAmpStr u)
      match ordered with
      | some imageUrl => some imageUrl
      | none =>
        match mm with
        | [] => none
        | (firstMediaId, _) :: _ =>
          match objLookup mm firstMediaId with
          | none => none
          | some mediaItem =>
            match mediaItem.s with
            | none => none
            | some src =>
              match src.u with
              | none => none
              | some u => if u = "" then none else some (decodeAmpStr u)

/-- The tail of crawler.ts `validateImage`: the `if (!imageUrl)` guard and
the final availability probe on the resolved URL. -/
def crawlerFinalCheck (net : String → Bool) (postUrl imageUrl : String) (n : Nat) :
    ImageValidation × Nat :=
  if imageUrl = "" then
    (⟨false, postUrl, some "No valid image URL found"⟩, n)
  else if net imageUrl then
    (⟨true, imageUrl, none⟩, n + 1)
  else
    (⟨false, imageUrl, some "Image URL returns 404 or is unavailable"⟩, n + 1)

/-- Embeds the `validateImage` of crawler.ts (the variant with the final
availability
probe).  Second component counts issued network requests. -/
def validateImageCrawler (net : String → Bool) (post : RawPost) :
    ImageValidation × Nat :=
  if !jsTruthyStr post.url then
    (⟨false, "", some "No URL found"⟩, 0)
  else
    let u := post.url.getD ""
    if post.is_video then
      (⟨false, u, some "Post is a video"⟩, 0)
    else if isImageUrlCrawler u then
      crawlerFinalCheck net u u 0
    else if isGalleryUrl u then
      match extractFirstImageFromGallery post with
      | some g => crawlerFinalCheck net u g 0
      | none => (⟨false, u, some "Could not extract image from gallery"⟩, 0)
    else if isImgurAlbumUrl u then
      match extractImageFromImgurAlbum net u with
      | (some g, n) => crawlerFinalCheck net u g n
      | (none, n) => (⟨false, u, some "Could not extract image from Imgur album"⟩, n)
    else
      (⟨false, u, some "URL is not an image or gallery"⟩, 0)

/-- Embeds the `validateImage` of comprehensive-crawler.ts (no final
availability
probe).  Second component counts issued network requests. -/
def validateImageComprehensive (net : String → Bool) (post : RawPost) :
    ImageValidation × Nat :=
  if !jsTruthyStr post.url then
    (⟨false, "", some "No URL found"⟩, 0)
  else
    let u := post.url.getD ""
    if post.is_video then
      (⟨false, u, some "Post is a video"⟩, 0)
    else if isImageUrlCrawler u then
      (⟨true, u, none⟩, 0)
    else if isGalleryUrl u then
      match extractFirstImageFromGallery post with
      | some g => (⟨true, g, none⟩, 0)
      | none => (⟨false, u, some "Could not extract image from gallery"⟩, 0)
    else if isImgurAlbumUrl u then
      match extractImageFromImgurAlbum net u with
      | (some g, n) => (⟨true, g, none⟩, n)
      | (none, n) => (⟨false, u, some "Could not extract image from Imgur album"⟩, n)
    else
      (⟨false, u, some "URL is not an image or gallery"⟩, 0)

/-! ## Comment submission (`RedditOAuthManager.postComment`, part_000) -/

/-- The `result.json.data` part of the comment-submission response; `things`
present
(any array, even empty, is truthy) signals success. -/
structure RedditJsonData where
  things : Option (List String)
deriving DecidableEq, Repr

/-- The `result.json` part of the comment-submission response. -/
structure RedditJson where
  errors : Option (List String)
  data : Option RedditJsonData
deriving DecidableEq, Repr

/-- The observable outcome of one `/api/comment` request: `threw` models a
network or body-parse exception, `ok` the HTTP status check, `json` and
`success` the parsed body fields. -/
structure CommentResponse where
  threw : Bool
  ok : Bool
  json : Option RedditJson
  success : Option Bool
deriving DecidableEq, Repr

/-- Embeds `RedditOAuthManager.postComment` as a function of the response:
errors
list non-empty → false; `json.data.things` present → true; top-level
`success === true` → true; anything else (including exceptions) → false. -/
def oauthPostComment (resp : CommentResponse) : Bool :=
  if resp.threw then false
  else if !resp.ok then false
  else if (match resp.json with
           | some j =>
             match j.errors with
             | some es => decide (0 < es.length)
             | none => false
           | none => false) then false
  else if (match resp.json with
           | some j =>
             match j.data with
             | some d => d.things.isSome
             | none => false
           | none => false) then true
  else if resp.success = some true then true
  else false

/-! ## Per-candidate processing (`fetchPostComments` / `processPost`, part_001) -/

/-- The usability filter of `fetchPostComments`:
body truthy (non-empty), body distinct from the `[deleted]` placeholder,
and body length above 10. -/
def usableComment (c : RedditComment) : Bool :=
  c.body ≠ "" && c.body ≠ "[deleted]" && decide (10 < jsLength c.body)

/-- Outcomes of the external calls made while processing one candidate post:
`fetchOk` is whether the comment-fetch request succeeded (a failure throws
and is caught by `processPost`), `rawComments` the returned comment list,
`llmResponse` the outcome of the completion endpoint, `commentResp` the
submission response, `recordOk` the database-insert outcome. -/
structure ProcessEnv where
  fetchOk : Bool
  rawComments : List RedditComment
  llmResponse : Option String
  commentResp : CommentResponse
  recordOk : Bool

/-- What `processPost` did and returned: `success` is its boolean result;
the three flags record whether the completion endpoint was called, whether a
real comment submission was sent to Reddit, and whether a CommentRecord
insert was issued. -/
structure ProcessResult where
  success : Bool
  generationAttempted : Bool
  submissionAttempted : Bool
  recordAttempted : Bool
deriving DecidableEq, Repr

/-- Embeds `processPost`: fetch comments (failure caught → false), skip when
fewer
than 3 usable comments, generate and validate, post (dry-run short-circuits
the real submission), and record in the database only outside dry-run and
only after a successful post. -/
def processPost (cfg : CommenterConfig) (env : ProcessEnv) : ProcessResult :=
  if !env.fetchOk then
    ⟨false, false, false, false⟩
  else
    let comments := env.rawComments.filter usableComment
    if comments.length < 3 then
      ⟨false, false, false, false⟩
    else
      match generateComment cfg.qualityControl env.llmResponse with
      | none => ⟨false, true, false, false⟩
      | some _ =>
        if cfg.qualityControl.dryRunMode then
          ⟨true, true, false, false⟩
        else if !oauthPostComment env.commentResp then
          ⟨false, true, true, false⟩
        else if env.recordOk then
          ⟨true, true, true, true⟩
        else
          ⟨false, true, true, true⟩

/-! ## Run Orchestrator (`runIntelligentCommenter`, part_001) -/

/-- The `CommenterResult` counters. -/
structure CommenterResult where
  processed : Nat
  commented : Nat
  skipped : Nat
  errors : Nat
  apiCallsUsed : Nat
deriving DecidableEq, Repr

/-- Outcomes of the external world for one run: `hotPosts` is the result of
the initial fetch (`none` models a thrown fetch failure), `alreadyCommented`
the CommentRecord existence check, `postEnv` the per-post external outcomes. -/
structure RunEnv where
  now : Int
  hotPosts : Option (List RedditPost)
  alreadyCommented : String → Bool
  postEnv : String → ProcessEnv

/-- One iteration of the candidate loop.  `processPost` catches every error
it can encounter and returns false, so the catch block of the loop (which
would
increment `errors`) is unreachable; a false result increments `skipped`. -/
def runStep (cfg : CommenterConfig) (env : RunEnv) (acc : CommenterResult)
    (post : RedditPost) : CommenterResult :=
  let r := processPost cfg (env.postEnv post.id)
  let acc := { acc with
    processed := acc.processed + 1,
    apiCallsUsed := acc.apiCallsUsed + 2 }
  if r.success then
    { acc with
      commented := acc.commented + 1,
      apiCallsUsed := acc.apiCallsUsed + (if cfg.qualityControl.dryRunMode then 0 else 1) }
  else
    { acc with skipped := acc.skipped + 1 }

/-- Embeds `runIntelligentCommenter`: a failed initial fetch propagates its
throw
(`none` — the run aborts); otherwise the candidates are filtered and each is
processed in turn, accumulating counters. -/
def runIntelligentCommenter (cfg : CommenterConfig) (env : RunEnv) :
    Option CommenterResult :=
  match env.hotPosts with
  | none => none
  | some hotPosts =>
    let afterFetch : CommenterResult := ⟨0, 0, 0, 0, 1⟩
    let candidates := filterCandidatePosts cfg env.now env.alreadyCommented hotPosts
    if candidates.isEmpty then some afterFetch
    else some (candidates.foldl (runStep cfg env) afterFetch)

/-! ## Shared helper lemmas -/

/-- Taking a prefix of a character list yields a list that `strStartsWith`
accepts against the original. -/
theorem strStartsWith_take (l : List Char) (n : Nat) :
    strStartsWith (l.take n) l = true := by
  induction l generalizing n with
  | nil => cases n <;> rfl
  | cons a as ih =>
    cases n with
    | zero => rfl
    | succ m => simp [List.take, strStartsWith, ih]

/-! ## Claims -/

/-- C1 counterexample: with minimum length 1, maximum length 5 and blacklist
`["bad"]`, the completion text `"badbadbad"` contains the blacklisted
keyword (case-insensitively) yet `validateComment` returns the truncated
comment `"badba"` instead of null: the too-long branch returns before the
blacklist check runs. -/
theorem c1_blacklist_counterexample :
    validateComment ⟨false, 5, 1, ["bad"]⟩ "badbadbad" = some "badba" ∧
    (QualityControl.blacklistedKeywords ⟨false, 5, 1, ["bad"]⟩).any
      (fun keyword => jsIncludes (jsToLower "badbadbad") (jsToLower keyword)) = true ∧
    validateComment ⟨false, 5, 1, ["bad"]⟩ "badbadbad" ≠ none := by
  refine ⟨by decide, by decide, by decide⟩

/-- C1 (amended): for every completion text whose length does not exceed the
configured maximum, the validation in `generateComment` returns null if the
text
contains any configured blacklisted keyword, compared case-insensitively;
a text longer than the maximum is instead truncated and returned without
the blacklist check. -/
theorem c1_blacklist_rejection (qc : QualityControl) (comment : String)
    (hlen : jsLength comment ≤ qc.maxCommentLength)
    (hbl : qc.blacklistedKeywords.any
      (fun keyword => jsIncludes (jsToLower comment) (jsToLower keyword)) = true) :
    validateComment qc comment = none := by
  unfold validateComment
  by_cases hmin : jsLength comment < qc.minCommentLength
  · simp [hmin]
  · simp [hmin, Nat.not_lt.mpr hlen, hbl]

/-- Witness for C1 (amended) at a concrete input: a blacklisted keyword in a
within-bounds comment yields null. -/
theorem c1_blacklist_rejection_witness :
    validateComment ⟨false, 50, 1, ["bad"]⟩ "xxBADxx yes" = none :=
  c1_blacklist_rejection ⟨false, 50, 1, ["bad"]⟩ "xxBADxx yes" (by decide) (by decide)

/-- C2: for every configuration with minimum length at most maximum length,
a completion text shorter than the configured minimum yields null from the
validation, and a text longer than the configured maximum yields the prefix
of exactly the configured maximum length (never null). -/
theorem c2_length_window (qc : QualityControl) (comment : String)
    (hcfg : qc.minCommentLength ≤ qc.maxCommentLength) :
    (jsLength comment < qc.minCommentLength → validateComment qc comment = none) ∧
    (qc.maxCommentLength < jsLength comment →
      validateComment qc comment = some (jsSubstring0 comment qc.maxCommentLength) ∧
      jsLength (jsSubstring0 comment qc.maxCommentLength) = qc.maxCommentLength ∧
      strStartsWith (jsSubstring0 comment qc.maxCommentLength).data comment.data = true) := by
  constructor
  · intro hshort
    unfold validateComment
    simp [hshort]
  · intro hlong
    have hnotshort : ¬ jsLength comment < qc.minCommentLength := by omega
    refine ⟨by unfold validateComment; simp [hnotshort, hlong], ?_, ?_⟩
    · simp only [jsLength] at hlong
      simp only [jsLength, jsSubstring0, List.length_take]
      omega
    · exact strStartsWith_take comment.data qc.maxCommentLength

/-- Witness for C2 at concrete inputs: a 2-character comment under minimum 5
is rejected, and an 8-character comment over maximum 5 is truncated to the
5-character prefix. -/
theorem c2_length_window_witness :
    validateComment ⟨false, 50, 5, []⟩ "ok" = none ∧
    validateComment ⟨false, 5, 1, []⟩ "abcdefgh" = some "abcde" := by
  constructor
  · exact (c2_length_window ⟨false, 50, 5, []⟩ "ok" (by decide)).1 (by decide)
  · exact ((c2_length_window ⟨false, 5, 1, []⟩ "abcdefgh" (by decide)).2 (by decide)).1

/-- C3: for every candidate whose comment fetch succeeds but yields fewer
than 3 usable comments (non-empty body, not the `[deleted]` placeholder,
body longer than 10 characters), `processPost` skips the candidate: it
returns false with no generation, no submission and no record insert. -/
theorem c3_skip_few_comments (cfg : CommenterConfig) (env : ProcessEnv)
    (hf : env.fetchOk = true)
    (hlt : (env.rawComments.filter usableComment).length < 3) :
    processPost cfg env = ⟨false, false, false, false⟩ := by
  unfold processPost
  simp [hf, hlt]

/-- Witness for C3 at a concrete input: two usable comments (one raw comment
is the deletion placeholder) lead to a skip with nothing attempted. -/
theorem c3_skip_few_comments_witness :
    processPost ⟨⟨1, 0⟩, ⟨1, 24, 10⟩, ⟨false, 100, 1, []⟩⟩
      ⟨true,
        [⟨"c1", "this is a long comment", "u1", 1, 0⟩,
         ⟨"c2", "[deleted]", "u2", 1, 0⟩,
         ⟨"c3", "yet another long one.", "u3", 1, 0⟩],
        some "Nice picture!", ⟨false, true, none, some true⟩, true⟩
      = ⟨false, false, false, false⟩ :=
  c3_skip_few_comments _ _ (by decide) (by decide)

/-- C4: the Candidate Filter equals the spec-side pipeline that applies, in
fixed order, comment-count, age, media-type and CommentRecord-exclusion
predicates and then truncates to the per-run maximum; moreover every post in
its output has no existing CommentRecord. -/
theorem c4_filter_pipeline (cfg : CommenterConfig) (now : Int)
    (hasCommentRecord : String → Bool) (posts : List RedditPost) :
    filterCandidatePosts cfg now hasCommentRecord posts
      = selectCandidatesSpec cfg now hasCommentRecord posts ∧
    ∀ post ∈ filterCandidatePosts cfg now hasCommentRecord posts,
      hasCommentRecord post.id = false := by
  constructor
  · rfl
  · intro post hpost
    unfold filterCandidatePosts at hpost
    have hmem := List.take_subset _ _ hpost
    have hfilter := List.mem_filter.mp hmem
    simpa using hfilter.2

/-- Witness for C4 at a concrete input: a qualifying image post survives the
filter and the record-exclusion fact holds for it. -/
theorem c4_filter_pipeline_witness :
    filterCandidatePosts ⟨⟨5, 0⟩, ⟨0, 24, 10⟩, ⟨false, 100, 1, []⟩⟩ 0 (fun _ => false)
        [⟨"p1", "t", "", "a", "https://i.redd.it/a.jpg", 0, 5, 1, false⟩]
      = selectCandidatesSpec ⟨⟨5, 0⟩, ⟨0, 24, 10⟩, ⟨false, 100, 1, []⟩⟩ 0 (fun _ => false)
        [⟨"p1", "t", "", "a", "https://i.redd.it/a.jpg", 0, 5, 1, false⟩] ∧
    (fun _ => false : String → Bool)
      (RedditPost.id ⟨"p1", "t", "", "a", "https://i.redd.it/a.jpg", 0, 5, 1, false⟩) = false :=
  ⟨(c4_filter_pipeline _ _ _ _).1,
   (c4_filter_pipeline ⟨⟨5, 0⟩, ⟨0, 24, 10⟩, ⟨false, 100, 1, []⟩⟩ 0 (fun _ => false)
       [⟨"p1", "t", "", "a", "https://i.redd.it/a.jpg", 0, 5, 1, false⟩]).2
     ⟨"p1", "t", "", "a", "https://i.redd.it/a.jpg", 0, 5, 1, false⟩ (by decide)⟩

/-- C5: whenever `processPost` issues a CommentRecord insert, a real comment
submission was sent and that submission returned success, and dry-run mode
was off — a record is never created speculatively. -/
theorem c5_record_only_after_success (cfg : CommenterConfig) (env : ProcessEnv)
    (h : (processPost cfg env).recordAttempted = true) :
    (processPost cfg env).submissionAttempted = true ∧
    oauthPostComment env.commentResp = true ∧
    cfg.qualityControl.dryRunMode = false := by
  by_cases hf : env.fetchOk = true
  · by_cases hlt : (env.rawComments.filter usableComment).length < 3
    · simp [processPost, hf, hlt] at h
    · rcases hgen : generateComment cfg.qualityControl env.llmResponse with _ | text
      · simp [processPost, hf, hlt, hgen] at h
      · by_cases hdry : cfg.qualityControl.dryRunMode = true
        · simp [processPost, hf, hlt, hgen, hdry] at h
        · by_cases hpost : oauthPostComment env.commentResp = true
          · refine ⟨?_, hpost, by simpa using hdry⟩
            by_cases hrec : env.recordOk = true <;>
              simp [processPost, hf, hlt, hgen, hdry, hpost, hrec]
          · simp [processPost, hf, hlt, hgen, hdry, hpost] at h
  · simp [processPost, hf] at h

/-- Witness for C5 at a concrete input where a record insert occurs. -/
theorem c5_record_only_after_success_witness :
    (processPost ⟨⟨1, 0⟩, ⟨1, 24, 10⟩, ⟨false, 100, 1, []⟩⟩
        ⟨true,
          [⟨"c1", "this is a long comment", "u1", 1, 0⟩,
           ⟨"c2", "another long comment!", "u2", 1, 0⟩,
           ⟨"c3", "yet another long one.", "u3", 1, 0⟩],
          some "Nice picture!", ⟨false, true, some ⟨some [], some ⟨some []⟩⟩, none⟩,
          true⟩).submissionAttempted = true ∧
    oauthPostComment ⟨false, true, some ⟨some [], some ⟨some []⟩⟩, none⟩ = true ∧
    QualityControl.dryRunMode ⟨false, 100, 1, []⟩ = false :=
  c5_record_only_after_success _ _ (by decide)

/-- C6: with dry-run mode enabled, `processPost` never sends a real comment
submission and never issues a CommentRecord insert; generation and
validation still run once enough usable comments are fetched, and when they
produce a comment the post is reported as succeeding. -/
theorem c6_dry_run (cfg : CommenterConfig) (env : ProcessEnv)
    (hdry : cfg.qualityControl.dryRunMode = true) :
    (processPost cfg env).submissionAttempted = false ∧
    (processPost cfg env).recordAttempted = false ∧
    (env.fetchOk = true → 3 ≤ (env.rawComments.filter usableComment).length →
      (processPost cfg env).generationAttempted = true) ∧
    (env.fetchOk = true → 3 ≤ (env.rawComments.filter usableComment).length →
      ∀ text, generateComment cfg.qualityControl env.llmResponse = some text →
        (processPost cfg env).success = true) := by
  unfold processPost
  by_cases hf : env.fetchOk
  · by_cases hlt : (env.rawComments.filter usableComment).length < 3
    · refine ⟨by simp [hf, hlt], by simp [hf, hlt], ?_, ?_⟩
      · intro _ hge; omega
      · intro _ hge; omega
    · rcases hgen : generateComment cfg.qualityControl env.llmResponse with _ | text
      · refine ⟨by simp [hf, hlt, hgen], by simp [hf, hlt, hgen], ?_, ?_⟩
        · intro _ _; simp [hf, hlt, hgen]
        · intro _ _ t ht; simp at ht
      · refine ⟨by simp [hf, hlt, hgen, hdry], by simp [hf, hlt, hgen, hdry], ?_, ?_⟩
        · intro _ _; simp [hf, hlt, hgen, hdry]
        · intro _ _ t _; simp [hf, hlt, hgen, hdry]
  · refine ⟨by simp [hf], by simp [hf], ?_, ?_⟩
    · intro hft; rw [hft] at hf; cases hf rfl
    · intro hft; rw [hft] at hf; cases hf rfl

/-- Witness for C6 at a concrete dry-run input: generation runs, the
candidate is reported as succeeding, and no submission or record occurs. -/
theorem c6_dry_run_witness :
    (processPost ⟨⟨1, 0⟩, ⟨1, 24, 10⟩, ⟨true, 100, 1, []⟩⟩
        ⟨true,
          [⟨"c1", "this is a long comment", "u1", 1, 0⟩,
           ⟨"c2", "another long comment!", "u2", 1, 0⟩,
           ⟨"c3", "yet another long one.", "u3", 1, 0⟩],
          some "Nice picture!", ⟨false, false, none, none⟩, false⟩).submissionAttempted = false ∧
    (processPost ⟨⟨1, 0⟩, ⟨1, 24, 10⟩, ⟨true, 100, 1, []⟩⟩
        ⟨true,
          [⟨"c1", "this is a long comment", "u1", 1, 0⟩,
           ⟨"c2", "another long comment!", "u2", 1, 0⟩,
           ⟨"c3", "yet another long one.", "u3", 1, 0⟩],
          some "Nice picture!", ⟨false, false, none, none⟩, false⟩).recordAttempted = false ∧
    (processPost ⟨⟨1, 0⟩, ⟨1, 24, 10⟩, ⟨true, 100, 1, []⟩⟩
        ⟨true,
          [⟨"c1", "this is a long comment", "u1", 1, 0⟩,
           ⟨"c2", "another long comment!", "u2", 1, 0⟩,
           ⟨"c3", "yet another long one.", "u3", 1, 0⟩],
          some "Nice picture!", ⟨false, false, none, none⟩, false⟩).generationAttempted = true ∧
    (processPost ⟨⟨1, 0⟩, ⟨1, 24, 10⟩, ⟨true, 100, 1, []⟩⟩
        ⟨true,
          [⟨"c1", "this is a long comment", "u1", 1, 0⟩,
           ⟨"c2", "another long comment!", "u2", 1, 0⟩,
           ⟨"c3", "yet another long one.", "u3", 1, 0⟩],
          some "Nice picture!", ⟨false, false, none, none⟩, false⟩).success = true := by
  have h := c6_dry_run ⟨⟨1, 0⟩, ⟨1, 24, 10⟩, ⟨true, 100, 1, []⟩⟩
    ⟨true,
      [⟨"c1", "this is a long comment", "u1", 1, 0⟩,
       ⟨"c2", "another long comment!", "u2", 1, 0⟩,
       ⟨"c3", "yet another long one.", "u3", 1, 0⟩],
      some "Nice picture!", ⟨false, false, none, none⟩, false⟩ (by decide)
  exact ⟨h.1, h.2.1, h.2.2.1 (by decide) (by decide),
    h.2.2.2 (by decide) (by decide) "Nice picture!" (by decide)⟩

/-- C7: both Image Resolver variants reject a post with no (truthy) URL with
reason `No URL found`, and a post flagged as video with reason
`Post is a video`, and in both cases issue zero network requests, for every
network oracle. -/
theorem c7_no_url_or_video (net : String → Bool) (post : RawPost) :
    (jsTruthyStr post.url = false →
      validateImageCrawler net post = (⟨false, "", some "No URL found"⟩, 0) ∧
      validateImageComprehensive net post = (⟨false, "", some "No URL found"⟩, 0)) ∧
    (jsTruthyStr post.url = true → post.is_video = true →
      validateImageCrawler net post
        = (⟨false, post.url.getD "", some "Post is a video"⟩, 0) ∧
      validateImageComprehensive net post
        = (⟨false, post.url.getD "", some "Post is a video"⟩, 0)) := by
  constructor
  · intro hurl
    constructor
    · unfold validateImageCrawler; simp [hurl]
    · unfold validateImageComprehensive; simp [hurl]
  · intro hurl hvid
    constructor
    · unfold validateImageCrawler; simp [hurl, hvid]
    · unfold validateImageComprehensive; simp [hurl, hvid]

/-- Witness for C7 at concrete inputs: a URL-less post and a video post are
rejected by both variants without any network request. -/
theorem c7_no_url_or_video_witness :
    (validateImageCrawler (fun _ => true) ⟨none, false, false, none, none⟩
        = (⟨false, "", some "No URL found"⟩, 0) ∧
      validateImageComprehensive (fun _ => true) ⟨none, false, false, none, none⟩
        = (⟨false, "", some "No URL found"⟩, 0)) ∧
    (validateImageCrawler (fun _ => true)
        ⟨some "https://i.redd.it/a.jpg", true, false, none, none⟩
        = (⟨false, (some "https://i.redd.it/a.jpg").getD "", some "Post is a video"⟩, 0) ∧
      validateImageComprehensive (fun _ => true)
        ⟨some "https://i.redd.it/a.jpg", true, false, none, none⟩
        = (⟨false, (some "https://i.redd.it/a.jpg").getD "", some "Post is a video"⟩, 0)) :=
  ⟨(c7_no_url_or_video (fun _ => true) ⟨none, false, false, none, none⟩).1 (by decide),
   (c7_no_url_or_video (fun _ => true)
      ⟨some "https://i.redd.it/a.jpg", true, false, none, none⟩).2 (by decide) (by decide)⟩

/-- C8: for a gallery post whose ordered item list is present and non-empty
and whose first listed item resolves to a media-metadata entry with a
non-empty source URL, the gallery extractor returns exactly that first
item, with HTML-escaped ampersands decoded, as its URL. -/
theorem c8_gallery_first_item (post : RawPost)
    (mm : List (String × MediaItem)) (gd : GalleryData)
    (firstItem : GalleryItem) (rest : List GalleryItem)
    (mediaItem : MediaItem) (src : MediaSource) (u : String)
    (hg : post.is_gallery = true)
    (hmm : post.media_metadata = some mm)
    (hgd : post.gallery_data = some gd)
    (hitems : gd.items = some (firstItem :: rest))
    (hlook : objLookup mm firstItem.media_id = some mediaItem)
    (hs : mediaItem.s = some src)
    (hu : src.u = some u)
    (hne : u ≠ "") :
    extractFirstImageFromGallery post = some (decodeAmpStr u) := by
  unfold extractFirstImageFromGallery
  simp [hg, hmm, hgd, hitems, hlook, hs, hu, hne]

/-- Witness for C8 at a concrete gallery payload: the first listed item (not
the first metadata key) is returned, with the escaped ampersand decoded. -/
theorem c8_gallery_first_item_witness :
    extractFirstImageFromGallery
      ⟨some "https://www.reddit.com/gallery/x", false, true,
        some ⟨some [⟨"aa"⟩, ⟨"bb"⟩]⟩,
        some [("bb", ⟨some ⟨some "https://b.jpg"⟩⟩),
              ("aa", ⟨some ⟨some "https://a.jpg?x=1&amp;y=2"⟩⟩)]⟩
      = some (decodeAmpStr "https://a.jpg?x=1&amp;y=2") :=
  c8_gallery_first_item
    ⟨some "https://www.reddit.com/gallery/x", false, true,
      some ⟨some [⟨"aa"⟩, ⟨"bb"⟩]⟩,
      some [("bb", ⟨some ⟨some "https://b.jpg"⟩⟩),
            ("aa", ⟨some ⟨some "https://a.jpg?x=1&amp;y=2"⟩⟩)]⟩
    [("bb", ⟨some ⟨some "https://b.jpg"⟩⟩),
     ("aa", ⟨some ⟨some "https://a.jpg?x=1&amp;y=2"⟩⟩)]
    ⟨some [⟨"aa"⟩, ⟨"bb"⟩]⟩ ⟨"aa"⟩ [⟨"bb"⟩]
    ⟨some ⟨some "https://a.jpg?x=1&amp;y=2"⟩⟩ ⟨some "https://a.jpg?x=1&amp;y=2"⟩
    "https://a.jpg?x=1&amp;y=2"
    rfl rfl rfl rfl (by decide) rfl rfl (by decide)

/-- C10: a concrete gallery post whose ordered item list is non-empty but
whose first listed item (`aa`) has a media-metadata entry without a source
URL is not rejected: the extractor falls through to the key-enumeration
fallback and returns the URL of a different media item (`bb`). -/
theorem c10_gallery_fallback :
    extractFirstImageFromGallery
      ⟨some "https://www.reddit.com/gallery/x", false, true,
        some ⟨some [⟨"aa"⟩]⟩,
        some [("bb", ⟨some ⟨some "https://b.jpg?x=1&amp;y=2"⟩⟩), ("aa", ⟨none⟩)]⟩
      = some "https://b.jpg?x=1&y=2" ∧
    GalleryData.items ⟨some [⟨"aa"⟩]⟩ = some [⟨"aa"⟩] ∧
    objLookup [("bb", ⟨some ⟨some "https://b.jpg?x=1&amp;y=2"⟩⟩), ("aa", ⟨none⟩)] "aa"
      = some ⟨none⟩ ∧
    objLookup [("bb", ⟨some ⟨some "https://b.jpg?x=1&amp;y=2"⟩⟩), ("aa", ⟨none⟩)] "bb"
      = some ⟨some ⟨some "https://b.jpg?x=1&amp;y=2"⟩⟩ ∧
    decodeAmpStr "https://b.jpg?x=1&amp;y=2" = "https://b.jpg?x=1&y=2" := by
  refine ⟨by decide, by decide, by decide, by decide, by decide⟩

/-- Counting behavior of one candidate-loop iteration: processed grows by
one, exactly one of commented/skipped grows by one, errors is untouched. -/
theorem runStep_counts (cfg : CommenterConfig) (env : RunEnv)
    (acc : CommenterResult) (post : RedditPost) :
    (runStep cfg env acc post).errors = acc.errors ∧
    (runStep cfg env acc post).processed = acc.processed + 1 ∧
    (runStep cfg env acc post).commented + (runStep cfg env acc post).skipped
      = acc.commented + acc.skipped + 1 := by
  unfold runStep
  dsimp only
  split <;> simp <;> omega

/-- Counting behavior of the whole candidate loop, by induction. -/
theorem runStep_fold_counts (cfg : CommenterConfig) (env : RunEnv)
    (candidates : List RedditPost) (acc : CommenterResult) :
    (candidates.foldl (runStep cfg env) acc).errors = acc.errors ∧
    (candidates.foldl (runStep cfg env) acc).processed
      = acc.processed + candidates.length ∧
    (candidates.foldl (runStep cfg env) acc).commented
        + (candidates.foldl (runStep cfg env) acc).skipped
      = acc.commented + acc.skipped + candidates.length := by
  induction candidates generalizing acc with
  | nil => simp
  | cons post rest ih =>
    have hstep := runStep_counts cfg env acc post
    have hrest := ih (runStep cfg env acc post)
    refine ⟨?_, ?_, ?_⟩ <;> simp only [List.foldl_cons, List.length_cons] <;> omega

/-- C9 counterexample: a run with one candidate whose comment fetch fails (a
failure while processing that candidate) completes with the error counter
still at zero — the failure is counted as skipped, so a per-candidate
failure does not increment the error counter as the claim states. -/
theorem c9_error_counter_counterexample :
    (processPost ⟨⟨5, 0⟩, ⟨0, 24, 10⟩, ⟨false, 100, 1, []⟩⟩
        ⟨false, [], none, ⟨false, false, none, none⟩, false⟩).success = false ∧
    runIntelligentCommenter ⟨⟨5, 0⟩, ⟨0, 24, 10⟩, ⟨false, 100, 1, []⟩⟩
        ⟨0, some [⟨"p1", "t", "", "a", "https://i.redd.it/a.jpg", 0, 5, 1, false⟩],
          fun _ => false,
          fun _ => ⟨false, [], none, ⟨false, false, none, none⟩, false⟩⟩
      = some ⟨1, 0, 1, 0, 3⟩ := by
  refine ⟨by decide, by decide⟩

/-- C9 (amended): a failure while processing one candidate is caught inside
`processPost` and the candidate is counted as skipped — the error counter
stays at zero and processing continues through every candidate, so the run
is never aborted by a per-candidate failure; a failure of the initial fetch
of hot posts aborts the entire run. -/
theorem c9_run_error_handling (cfg : CommenterConfig) (env : RunEnv) :
    (env.hotPosts = none → runIntelligentCommenter cfg env = none) ∧
    (∀ hotPosts, env.hotPosts = some hotPosts →
      ∃ r, runIntelligentCommenter cfg env = some r ∧
        r.errors = 0 ∧
        r.processed
          = (filterCandidatePosts cfg env.now env.alreadyCommented hotPosts).length ∧
        r.commented + r.skipped = r.processed) := by
  constructor
  · intro habort
    unfold runIntelligentCommenter
    rw [habort]
  · intro hotPosts hfetch
    unfold runIntelligentCommenter
    rw [hfetch]
    by_cases hempty :
        (filterCandidatePosts cfg env.now env.alreadyCommented hotPosts).isEmpty = true
    · refine ⟨⟨0, 0, 0, 0, 1⟩, by simp [hempty], rfl, ?_, rfl⟩
      rw [List.isEmpty_iff] at hempty
      simp [hempty]
    · obtain ⟨h1, h2, h3⟩ := runStep_fold_counts cfg env
        (filterCandidatePosts cfg env.now env.alreadyCommented hotPosts) ⟨0, 0, 0, 0, 1⟩
      refine ⟨List.foldl (runStep cfg env) ⟨0, 0, 0, 0, 1⟩
          (filterCandidatePosts cfg env.now env.alreadyCommented hotPosts),
        by simp [hempty], by simpa using h1, by simpa using h2, ?_⟩
      have h2' : (List.foldl (runStep cfg env) ⟨0, 0, 0, 0, 1⟩
          (filterCandidatePosts cfg env.now env.alreadyCommented hotPosts)).processed
          = (filterCandidatePosts cfg env.now env.alreadyCommented hotPosts).length := by
        simpa using h2
      have h3' : (List.foldl (runStep cfg env) ⟨0, 0, 0, 0, 1⟩
            (filterCandidatePosts cfg env.now env.alreadyCommented hotPosts)).commented
          + (List.foldl (runStep cfg env) ⟨0, 0, 0, 0, 1⟩
            (filterCandidatePosts cfg env.now env.alreadyCommented hotPosts)).skipped
          = (filterCandidatePosts cfg env.now env.alreadyCommented hotPosts).length := by
        simpa using h3
      omega

/-- Witness for C9 (amended): a failed initial fetch yields an aborted run,
and a concrete one-candidate run with a per-candidate failure completes
with zero errors and one processed (= skipped) candidate. -/
theorem c9_run_error_handling_witness :
    runIntelligentCommenter ⟨⟨5, 0⟩, ⟨0, 24, 10⟩, ⟨false, 100, 1, []⟩⟩
        ⟨0, none, fun _ => false,
          fun _ => ⟨false, [], none, ⟨false, false, none, none⟩, false⟩⟩ = none ∧
    ∃ r, runIntelligentCommenter ⟨⟨5, 0⟩, ⟨0, 24, 10⟩, ⟨false, 100, 1, []⟩⟩
        ⟨0, some [⟨"p2", "t", "", "a", "https://i.redd.it/b.png", 0, 5, 1, false⟩],
          fun _ => false,
          fun _ => ⟨false, [], none, ⟨false, false, none, none⟩, false⟩⟩
        = some r ∧
      r.errors = 0 ∧
      r.processed = (filterCandidatePosts ⟨⟨5, 0⟩, ⟨0, 24, 10⟩, ⟨false, 100, 1, []⟩⟩ 0
        (fun _ => false)
        [⟨"p2", "t", "", "a", "https://i.redd.it/b.png", 0, 5, 1, false⟩]).length ∧
      r.commented + r.skipped = r.processed :=
  ⟨(c9_run_error_handling ⟨⟨5, 0⟩, ⟨0, 24, 10⟩, ⟨false, 100, 1, []⟩⟩
      ⟨0, none, fun _ => false,
        fun _ => ⟨false, [], none, ⟨false, false, none, none⟩, false⟩⟩).1 rfl,
   (c9_run_error_handling ⟨⟨5, 0⟩, ⟨0, 24, 10⟩, ⟨false, 100, 1, []⟩⟩
      ⟨0, some [⟨"p2", "t", "", "a", "https://i.redd.it/b.png", 0, 5, 1, false⟩],
        fun _ => false,
        fun _ => ⟨false, [], none, ⟨false, false, none, none⟩, false⟩⟩).2
     [⟨"p2", "t", "", "a", "https://i.redd.it/b.png", 0, 5, 1, false⟩] rfl⟩
